import Mathlib

/-!
Shallow embedding of `src/main.ts` of the install-qt-action repository.

The action's `run` function gathers inputs, resolves a Qt version through an
external `aqt list-qt` lookup, computes a default architecture, builds the
installer argument vector, and (guarded by the `set-env` input) exports a set
of environment variables and one PATH prepend.

External collaborators (the `aqt` lookup and the filesystem glob) are passed
in as functions; CI inputs and process environment are explicit parameters.
JavaScript truthiness on strings (`if (s)`) is modelled as `s ≠ ""`, and an
`undefined` array element flowing into string concatenation is modelled by
`Option.getD "undefined"` (JS coerces `undefined` to the text "undefined"
inside `+` on strings), while `core.exportVariable(name, undefined)` stores
the empty string (its `toCommandValue` maps `undefined` to `""`).
-/

namespace InstallQt

/-- JavaScript `String.prototype.split` with a one-character separator,
acting on the character list: `"".split(c)` is `[""]`, separators at the
ends produce empty fields. -/
def splitOnChar (c : Char) : List Char → List (List Char)
  | [] => [[]]
  | x :: xs =>
    match splitOnChar c xs with
    | [] => [[x]]
    | y :: ys => if x = c then [] :: y :: ys else (x :: y) :: ys

/-- JavaScript `s.split(sep)` for a one-character separator, on strings. -/
def jsSplit (sep : Char) (s : String) : List String :=
  (splitOnChar sep s.data).map (fun cs => ⟨cs⟩)

/-- Numeric value of a digit string (version segments are numeric; the
`compare-versions` library compares segments as numbers). -/
def digitsToNat (cs : List Char) : Nat :=
  cs.foldl (fun n c => n * 10 + (c.toNat - 48)) 0

/-- Dotted version string as its list of numeric segments. -/
def parseSegments (v : String) : List Nat :=
  (splitOnChar '.' v.data).map digitsToNat

/-- Three-way comparison on naturals. -/
def natCmp (a b : Nat) : Ordering :=
  if a < b then .lt else if a = b then .eq else .gt

/-- Comparison of the padding value 0 against each remaining right-hand
segment (a run of the segment comparison where the left list is exhausted). -/
def cmpZeros : List Nat → Ordering
  | [] => .eq
  | b :: bs => match natCmp 0 b with | .eq => cmpZeros bs | o => o

/-- Comparison of each remaining left-hand segment against the padding
value 0 (a run of the segment comparison where the right list is
exhausted). -/
def zerosCmp : List Nat → Ordering
  | [] => .eq
  | a :: as => match natCmp a 0 with | .eq => zerosCmp as | o => o

/-- Segment-wise numeric comparison of version segment lists; a missing
segment compares as 0, matching the `compare-versions` library. -/
def cmpSegs : List Nat → List Nat → Ordering
  | [], bs => cmpZeros bs
  | a :: as, [] => match natCmp a 0 with | .eq => zerosCmp as | o => o
  | a :: as, b :: bs => match natCmp a b with | .eq => cmpSegs as bs | o => o

/-- Semantic (major.minor.patch, numeric per component) comparison of two
dotted version strings, as performed by `compareVersions.compare`. -/
def compareVer (a b : String) : Ordering :=
  cmpSegs (parseSegments a) (parseSegments b)

/-- Model of `compareVersions.compare(a, b, ">=")`. -/
def verGe (a b : String) : Bool :=
  match compareVer a b with | .lt => false | _ => true

/-- Model of `compareVersions.compare(a, b, "<")`. -/
def verLt (a b : String) : Bool :=
  match compareVer a b with | .lt => true | _ => false

/-- Model of `getDefaultHost` (main.ts lines 9-15): maps `process.platform`
to the default `host` input. -/
def getDefaultHost (platform : String) : String :=
  if platform = "win32" then "windows"
  else if platform = "darwin" then "mac"
  else "linux"

/-- Outcome of one external `aqt list-qt` invocation as captured by
`executeCaptureStdout` (main.ts lines 24-34): the process exit code and the
already-trimmed standard output. -/
structure LookupOutcome where
  return_value : Nat
  stdout : String
  deriving DecidableEq

/-- Argument vector passed to `python -m aqt list-qt` (main.ts lines 75-78):
host, target, `--spec "<spec>"` (the spec is wrapped in literal double
quotes), `--latest`. -/
def listQtArgs (host target simpleSpec : String) : List String :=
  [host, target, "--spec", "\"" ++ simpleSpec ++ "\"", "--latest"]

/-- Model of `determineVersion` (main.ts lines 72-81): runs the external
lookup and throws only when its exit code is non-zero; the (trimmed) stdout
is returned unchecked otherwise. -/
def determineVersion (lookup : String → String → String → LookupOutcome)
    (host target simpleSpec : String) : Except String String :=
  let r := lookup host target simpleSpec
  if r.return_value ≠ 0 then
    .error ("Failed to resolve Qt version from SimpleSpec " ++ simpleSpec)
  else
    .ok r.stdout

/-- Model of main.ts line 70: `core.getInput("version") || "6.2"`. -/
def simpleSpecOf (versionInput : String) : String :=
  if versionInput = "" then "6.2" else versionInput

/-- Model of the arch-defaulting block (main.ts lines 99-113), for the case
where the user supplied no architecture: the value `arch` holds after the
block starting from the empty string. -/
def defaultArch (host version : String) : String :=
  if host = "windows" then
    if verGe version "5.15.0" then "win64_msvc2019_64"
    else if verLt version "5.6.0" then "win64_msvc2013_64"
    else if verLt version "5.9.0" then "win64_msvc2015_64"
    else "win64_msvc2017_64"
  else if host = "android" then "android_armv7"
  else ""

/-- Model of main.ts lines 92 and 99-113 together: the user-supplied arch
when non-empty (JS truthiness), else the defaulting table. -/
def resolveArch (archInput host version : String) : String :=
  if archInput = "" then defaultArch host version else archInput

/-- Tail of the installer argument vector after the positional
host/target/version/arch part (main.ts lines 121-136): the `-m` module list
when modules were given, then `-O dir`, then the verbatim extra tokens. -/
def restInstallArgs (modules dir extra : String) : List String :=
  (if modules ≠ "" then "-m" :: jsSplit ' ' modules else []) ++
    ["-O", dir] ++
    (if extra ≠ "" then jsSplit ' ' extra else [])

/-- Model of the args assembly (main.ts lines 116-136): `[host, target,
version]`, then the arch token exactly when `arch` is truthy and
`host == "windows" || target == "android" || arch == "wasm_32"`, then the
module, output-directory and extra tokens. -/
def buildInstallArgs (host target version arch modules dir extra : String) :
    List String :=
  let args := [host, target, version]
  let args :=
    if arch ≠ "" ∧ (host = "windows" ∨ target = "android" ∨ arch = "wasm_32")
    then args ++ [arch] else args
  let args := if modules ≠ "" then args ++ ("-m" :: jsSplit ' ' modules) else args
  args ++ (["-O", dir] ++ (if extra ≠ "" then jsSplit ' ' extra else []))

/-- Model of the tool-token parsing (main.ts lines 144-146): split on commas;
the tool name is the first element and the variant name is the last element
when there is more than one element, else the empty string. -/
def parseToolSpec (element : String) : String × String :=
  let elements := jsSplit ',' element
  (elements.headD "",
    if elements.length > 1 then elements.getLastD "" else "")

/-- Model of main.ts line 156: the directory name for the installed version,
with the single naming exception for Qt 5.9.0. -/
def version_dir (version : String) : String :=
  if version = "5.9.0" then "5.9" else version

/-- One observable environment effect: `core.exportVariable(name, value)` or
`core.addPath(path)`. -/
inductive EnvMutation where
  | exportVariable (name value : String)
  | addPath (path : String)
  deriving DecidableEq

/-- Model of the environment block (main.ts lines 158-188). `globMatches` is
the result of `glob.sync(dir + "/" + version_dir + "/**/*")`; the code takes
its first element with no arity check, so an empty result leaves `qtPath`
undefined: concatenations then produce "undefined"-, and direct exports
empty-, valued strings, per JS coercion. `ldLibraryPath` and `pkgConfigPath`
are the preexisting process environment values, with `""` standing for
unset (JS truthiness conflates the two). -/
def computeEnvMutations (setEnv tools platform ldLibraryPath pkgConfigPath
    version dir : String) (globMatches : List String) : List EnvMutation :=
  let qtPath? : Option String := globMatches.head?
  let qs := qtPath?.getD "undefined"
  let qv := qtPath?.getD ""
  if setEnv = "true" then
    (if tools ≠ "" then [.exportVariable "IQTA_TOOLS" (dir ++ "/Tools")] else []) ++
    (if platform = "linux" then
      [if ldLibraryPath ≠ "" then
        .exportVariable "LD_LIBRARY_PATH" (ldLibraryPath ++ ":" ++ qs ++ "/lib")
      else
        .exportVariable "LD_LIBRARY_PATH" (qs ++ "/lib")]
    else []) ++
    (if platform ≠ "win32" then
      [if pkgConfigPath ≠ "" then
        .exportVariable "PKG_CONFIG_PATH" (pkgConfigPath ++ ":" ++ qs ++ "/lib/pkgconfig")
      else
        .exportVariable "PKG_CONFIG_PATH" (qs ++ "/lib/pkgconfig")]
    else []) ++
    (if verLt version "6.0.0" then
      [.exportVariable "Qt5_Dir" qv, .exportVariable "Qt5_DIR" qv]
    else
      [.exportVariable "Qt6_DIR" qv]) ++
    [.exportVariable "QT_PLUGIN_PATH" (qs ++ "/plugins"),
     .exportVariable "QML2_IMPORT_PATH" (qs ++ "/qml"),
     .addPath (qs ++ "/bin")]
  else []

/-- CI inputs read through `core.getInput`; absent inputs are the empty
string, exactly as `getInput` reports them. -/
structure Inputs where
  dir : String
  tools : String
  setEnv : String
  host : String
  target : String
  version : String
  arch : String
  extra : String
  modules : String
  cached : String
  toolsOnly : String
  deriving DecidableEq

/-- Ambient process state and external collaborators: the platform, the
runner workspace, the preexisting environment values (`""` = unset), the
`aqt list-qt` lookup keyed by its three query arguments, and the filesystem
glob keyed by its pattern. -/
structure World where
  platform : String
  runnerWorkspace : String
  ldLibraryPath : String
  pkgConfigPath : String
  lookup : String → String → String → LookupOutcome
  globSync : String → List String

/-- Observable outcome of a successful run: the resolved version, the spec
string sent to the lookup, the `aqt install-qt` argument vector when that
install was invoked, the parsed (toolName, variantName) pairs of the
requested tool installs, and the emitted environment mutations. -/
structure RunOutput where
  resolved : String
  specUsed : String
  installArgs : Option (List String)
  toolCalls : List (String × String)
  mutations : List EnvMutation
  deriving DecidableEq

/-- Model of `run` (main.ts lines 36-192), restricted to its observable
decisions: input defaulting (lines 44, 66-70), version resolution (called
before the install at line 95 and again at line 155; both calls are the same
pure lookup), arch defaulting, installer argument assembly, tool-token
parsing, and the environment block. A resolution failure aborts the run with
no install and no mutations (the top-level catch at line 189). -/
def run (inp : Inputs) (w : World) : Except String RunOutput :=
  let dir := (if inp.dir = "" then w.runnerWorkspace else inp.dir) ++ "/Qt"
  let host := if inp.host = "" then getDefaultHost w.platform else inp.host
  let target := if inp.target = "" then "desktop" else inp.target
  let simpleSpec := simpleSpecOf inp.version
  match determineVersion w.lookup host target simpleSpec with
  | .error e => .error e
  | .ok version =>
    let arch := resolveArch inp.arch host version
    let installArgs :=
      if inp.cached ≠ "true" ∧ inp.toolsOnly ≠ "true" then
        some (buildInstallArgs host target version arch inp.modules dir inp.extra)
      else none
    let toolCalls :=
      if inp.cached ≠ "true" ∧ inp.tools ≠ "" then
        (jsSplit ' ' inp.tools).map parseToolSpec
      else []
    let mutations :=
      computeEnvMutations inp.setEnv inp.tools w.platform w.ldLibraryPath
        w.pkgConfigPath version dir
        (w.globSync (dir ++ "/" ++ version_dir version ++ "/**/*"))
    .ok { resolved := version, specUsed := simpleSpec,
          installArgs := installArgs, toolCalls := toolCalls,
          mutations := mutations }

/-- Values exported for the variable `n`, in emission order. -/
def exportsOf (ms : List EnvMutation) (n : String) : List String :=
  ms.filterMap (fun m =>
    match m with
    | .exportVariable name value => if name = n then some value else none
    | .addPath _ => none)

lemma exportsOf_nil (n : String) : exportsOf [] n = [] := rfl

lemma exportsOf_append (ms1 ms2 : List EnvMutation) (n : String) :
    exportsOf (ms1 ++ ms2) n = exportsOf ms1 n ++ exportsOf ms2 n :=
  List.filterMap_append ms1 ms2 _

lemma exportsOf_cons_export (name value : String) (ms : List EnvMutation)
    (n : String) :
    exportsOf (.exportVariable name value :: ms) n
      = (if name = n then [value] else []) ++ exportsOf ms n := by
  by_cases h : name = n <;> simp [exportsOf, h]

lemma exportsOf_cons_addPath (p : String) (ms : List EnvMutation) (n : String) :
    exportsOf (.addPath p :: ms) n = exportsOf ms n := by
  simp [exportsOf]

lemma zerosCmp_ne_lt : ∀ xs, zerosCmp xs ≠ Ordering.lt := by
  intro xs
  induction xs with
  | nil => simp [zerosCmp]
  | cons a as ih =>
    by_cases ha : a = 0
    · subst ha; simpa [zerosCmp, natCmp] using ih
    · simp [zerosCmp, natCmp, ha]

lemma cmpSegs_nil_right (xs : List Nat) : cmpSegs xs [] = zerosCmp xs := by
  cases xs <;> simp [cmpSegs, zerosCmp, cmpZeros]

lemma cmpSegs_single_zero_ne_lt : ∀ xs, cmpSegs xs [0] ≠ Ordering.lt := by
  intro xs
  cases xs with
  | nil => simp [cmpSegs, cmpZeros, natCmp]
  | cons a as =>
    by_cases ha : a = 0
    · subst ha
      simp only [cmpSegs, natCmp]
      simpa [cmpSegs_nil_right] using zerosCmp_ne_lt as
    · simp [cmpSegs, natCmp, ha]

lemma cmpZeros_pair (b : Nat) : cmpZeros [b, 0] = Ordering.lt ↔ 0 < b := by
  by_cases hb : 0 < b
  · simp [cmpZeros, natCmp, hb]
  · have hb0 : b = 0 := by omega
    subst hb0
    simp [cmpZeros, natCmp]

lemma cmpSegs_five_mono (xs : List Nat) (b c : Nat) (hbc : b ≤ c)
    (h : cmpSegs xs [5, b, 0] = Ordering.lt) :
    cmpSegs xs [5, c, 0] = Ordering.lt := by
  match xs with
  | [] => simp [cmpSegs, cmpZeros, natCmp]
  | x :: xs' =>
    simp only [cmpSegs] at h ⊢
    by_cases h5 : x < 5
    · simp [natCmp, h5]
    · by_cases he : x = 5
      · subst he
        have h55 : natCmp 5 5 = Ordering.eq := by decide
        rw [h55] at h ⊢
        match xs' with
        | [] =>
          have hb : 0 < b := (cmpZeros_pair b).1 h
          exact (cmpZeros_pair c).2 (lt_of_lt_of_le hb hbc)
        | y :: ys =>
          simp only [cmpSegs] at h ⊢
          by_cases hyb : y < b
          · have hyc : y < c := lt_of_lt_of_le hyb hbc
            simp [natCmp, hyc]
          · by_cases hye : y = b
            · exfalso
              subst hye
              simp only [natCmp, lt_irrefl, if_false, if_pos rfl] at h
              exact cmpSegs_single_zero_ne_lt ys h
            · exfalso
              simp [natCmp, hyb, hye] at h
      · exfalso
        simp [natCmp, h5, he] at h

lemma verGe_eq_false_of_verLt (a b : String) (h : verLt a b = true) :
    verGe a b = false := by
  unfold verLt at h
  unfold verGe
  cases hc : compareVer a b <;> rw [hc] at h <;> simp_all

lemma verGe_eq_not_verLt (a b : String) : verGe a b = !(verLt a b) := by
  unfold verGe verLt
  cases compareVer a b <;> rfl

lemma verLt_56_to_515 (v : String) (h : verLt v "5.6.0" = true) :
    verLt v "5.15.0" = true := by
  unfold verLt compareVer at h ⊢
  have e1 : parseSegments "5.6.0" = [5, 6, 0] := by decide
  have e2 : parseSegments "5.15.0" = [5, 15, 0] := by decide
  rw [e1] at h
  rw [e2]
  cases hc : cmpSegs (parseSegments v) [5, 6, 0] with
  | lt => rw [cmpSegs_five_mono (parseSegments v) 6 15 (by omega) hc]
  | eq => rw [hc] at h; simp at h
  | gt => rw [hc] at h; simp at h

lemma verLt_59_to_515 (v : String) (h : verLt v "5.9.0" = true) :
    verLt v "5.15.0" = true := by
  unfold verLt compareVer at h ⊢
  have e1 : parseSegments "5.9.0" = [5, 9, 0] := by decide
  have e2 : parseSegments "5.15.0" = [5, 15, 0] := by decide
  rw [e1] at h
  rw [e2]
  cases hc : cmpSegs (parseSegments v) [5, 9, 0] with
  | lt => rw [cmpSegs_five_mono (parseSegments v) 9 15 (by omega) hc]
  | eq => rw [hc] at h; simp at h
  | gt => rw [hc] at h; simp at h

lemma buildInstallArgs_eq (host target version arch modules dir extra : String) :
    buildInstallArgs host target version arch modules dir extra
      = (if arch ≠ "" ∧ (host = "windows" ∨ target = "android" ∨ arch = "wasm_32")
          then [host, target, version, arch] else [host, target, version])
        ++ restInstallArgs modules dir extra := by
  unfold buildInstallArgs restInstallArgs
  split_ifs <;> simp

/-- C1: the claim asserts the arch token is included whenever
host ∈ {windows, android} (or target is android or arch is wasm_32); but
for host "android" with target "desktop" the code omits the token even
though a non-empty arch was computed, because line 117 tests only
`host == "windows"`, never `host == "android"`. -/
theorem C1_archToken_counterexample :
    (("android" : String) = "windows" ∨ ("android" : String) = "android") ∧
    ("android_armv7" : String) ≠ "" ∧
    buildInstallArgs "android" "desktop" "5.15.2" "android_armv7" "" "/ws/Qt" ""
      = ["android", "desktop", "5.15.2", "-O", "/ws/Qt"] ∧
    "android_armv7" ∉
      buildInstallArgs "android" "desktop" "5.15.2" "android_armv7" "" "/ws/Qt" "" :=
  ⟨Or.inr rfl, by decide, by decide, by decide⟩

/-- C1 (amended): for every triple with arch non-empty, buildInstallArgs
includes the arch token right after `[host, target, version]` if and only
if host == "windows" or target == "android" or arch == "wasm_32" (host
"android" alone does not qualify); when the condition fails, or arch is
empty, the vector starts `[host, target, version]` with no arch token; in
particular for host "mac", target "desktop", arch "" the token is absent. -/
theorem C1_archToken_amended :
    (∀ host target version arch modules dir extra, arch ≠ "" →
      (buildInstallArgs host target version arch modules dir extra
          = [host, target, version, arch] ++ restInstallArgs modules dir extra
        ↔ (host = "windows" ∨ target = "android" ∨ arch = "wasm_32"))) ∧
    (∀ host target version arch modules dir extra,
      ¬ (arch ≠ "" ∧ (host = "windows" ∨ target = "android" ∨ arch = "wasm_32")) →
      buildInstallArgs host target version arch modules dir extra
        = [host, target, version] ++ restInstallArgs modules dir extra) ∧
    buildInstallArgs "mac" "desktop" "6.2.0" "" "" "/d" ""
      = ["mac", "desktop", "6.2.0", "-O", "/d"] := by
  refine ⟨?_, ?_, by decide⟩
  · intro host target version arch modules dir extra hne
    rw [buildInstallArgs_eq]
    constructor
    · intro heq
      by_contra hcond
      rw [if_neg (fun hand => hcond hand.2)] at heq
      have hlen := congrArg List.length heq
      simp at hlen
    · intro hc
      rw [if_pos ⟨hne, hc⟩]
  · intro host target version arch modules dir extra hneg
    rw [buildInstallArgs_eq, if_neg hneg]

/-- Witness for the amended C1 at concrete inputs: on windows the token is
included; for host android with target desktop it is omitted. -/
theorem C1_archToken_amended_witness :
    (buildInstallArgs "windows" "desktop" "5.15.2" "win64_msvc2019_64" "" "/d" ""
        = ["windows", "desktop", "5.15.2", "win64_msvc2019_64"]
          ++ restInstallArgs "" "/d" ""
      ↔ (("windows" : String) = "windows" ∨ ("desktop" : String) = "android"
          ∨ ("win64_msvc2019_64" : String) = "wasm_32")) ∧
    buildInstallArgs "android" "desktop" "6.2.0" "android_armv7" "" "/d" ""
      = ["android", "desktop", "6.2.0"] ++ restInstallArgs "" "/d" "" :=
  ⟨C1_archToken_amended.1 "windows" "desktop" "5.15.2" "win64_msvc2019_64"
      "" "/d" "" (by decide),
   C1_archToken_amended.2.1 "android" "desktop" "6.2.0" "android_armv7"
      "" "/d" "" (by decide)⟩

/-- C2 counterexample: the claim asserts resolution fails whenever the
lookup returns blank stdout; but with exit code 0 and empty output,
determineVersion succeeds and returns the empty string — only a non-zero
exit code is checked (main.ts line 79). -/
theorem C2_blankStdout_counterexample :
    determineVersion (fun _ _ _ => ⟨0, ""⟩) "linux" "desktop" "6.2"
      = Except.ok "" := rfl

/-- C2 (amended): determineVersion fails (with the resolution error
message) exactly when the external lookup exits non-zero; when the lookup
exits zero it returns the trimmed stdout unchecked, even when that output
is blank. -/
theorem C2_resolveVersion_amended :
    ∀ (lookup : String → String → String → LookupOutcome) (host target spec : String),
      ((lookup host target spec).return_value ≠ 0 →
        determineVersion lookup host target spec
          = Except.error ("Failed to resolve Qt version from SimpleSpec " ++ spec)) ∧
      ((lookup host target spec).return_value = 0 →
        determineVersion lookup host target spec
          = Except.ok (lookup host target spec).stdout) := by
  intro lookup host target spec
  constructor
  · intro h
    simp [determineVersion, h]
  · intro h
    simp [determineVersion, h]

/-- Witness for the amended C2: a lookup exiting 1 yields the resolution
error; a lookup exiting 0 with output "6.2.4" yields that version. -/
theorem C2_resolveVersion_amended_witness :
    determineVersion (fun _ _ _ => ⟨1, "noise"⟩) "linux" "desktop" "6.2"
      = Except.error ("Failed to resolve Qt version from SimpleSpec " ++ "6.2") ∧
    determineVersion (fun _ _ _ => ⟨0, "6.2.4"⟩) "linux" "desktop" "6.2"
      = Except.ok "6.2.4" :=
  ⟨(C2_resolveVersion_amended (fun _ _ _ => ⟨1, "noise"⟩) "linux" "desktop" "6.2").1
      (by decide),
   (C2_resolveVersion_amended (fun _ _ _ => ⟨0, "6.2.4"⟩) "linux" "desktop" "6.2").2
      (by decide)⟩

/-- C4: when no architecture is supplied, the defaulting table is evaluated
in order with first match winning, under semantic version comparison: on
windows, v ≥ 5.15.0 gives win64_msvc2019_64, then v < 5.6.0 gives
win64_msvc2013_64, then v < 5.9.0 gives win64_msvc2015_64, otherwise
win64_msvc2017_64; host android always gives android_armv7; every other
host leaves the arch empty; including the spec's boundary examples. -/
theorem C4_defaultArch_policy :
    (∀ v, verGe v "5.15.0" = true →
      defaultArch "windows" v = "win64_msvc2019_64") ∧
    (∀ v, verLt v "5.6.0" = true →
      defaultArch "windows" v = "win64_msvc2013_64") ∧
    (∀ v, verLt v "5.9.0" = true → verLt v "5.6.0" = false →
      defaultArch "windows" v = "win64_msvc2015_64") ∧
    (∀ v, verGe v "5.15.0" = false → verLt v "5.6.0" = false →
      verLt v "5.9.0" = false → defaultArch "windows" v = "win64_msvc2017_64") ∧
    (∀ v, defaultArch "android" v = "android_armv7") ∧
    (∀ host v, host ≠ "windows" → host ≠ "android" → defaultArch host v = "") ∧
    defaultArch "windows" "5.5.9" = "win64_msvc2013_64" ∧
    defaultArch "windows" "5.8.9" = "win64_msvc2015_64" ∧
    defaultArch "windows" "5.14.9" = "win64_msvc2017_64" ∧
    defaultArch "windows" "5.15.0" = "win64_msvc2019_64" := by
  refine ⟨?_, ?_, ?_, ?_, ?_, ?_, by decide, by decide, by decide, by decide⟩
  · intro v h
    simp [defaultArch, h]
  · intro v h
    have h15 := verGe_eq_false_of_verLt _ _ (verLt_56_to_515 v h)
    simp [defaultArch, h, h15]
  · intro v h9 h6
    have h15 := verGe_eq_false_of_verLt _ _ (verLt_59_to_515 v h9)
    simp [defaultArch, h9, h6, h15]
  · intro v hge h6 h9
    simp [defaultArch, hge, h6, h9]
  · intro v
    rfl
  · intro host v hw ha
    simp [defaultArch, hw, ha]

/-- Witness for C4 at concrete versions in each row of the table. -/
theorem C4_defaultArch_policy_witness :
    defaultArch "windows" "6.2.0" = "win64_msvc2019_64" ∧
    defaultArch "windows" "5.5.0" = "win64_msvc2013_64" ∧
    defaultArch "windows" "5.7.0" = "win64_msvc2015_64" ∧
    defaultArch "windows" "5.10.0" = "win64_msvc2017_64" ∧
    defaultArch "android" "6.2.0" = "android_armv7" ∧
    defaultArch "linux" "6.2.0" = "" :=
  ⟨C4_defaultArch_policy.1 "6.2.0" (by decide),
   C4_defaultArch_policy.2.1 "5.5.0" (by decide),
   C4_defaultArch_policy.2.2.1 "5.7.0" (by decide) (by decide),
   C4_defaultArch_policy.2.2.2.1 "5.10.0" (by decide) (by decide) (by decide),
   C4_defaultArch_policy.2.2.2.2.1 "6.2.0",
   C4_defaultArch_policy.2.2.2.2.2.1 "linux" "6.2.0" (by decide) (by decide)⟩

/-- C8: the derived directory name equals the resolved version except for
the single historical exception 5.9.0, which maps to 5.9. -/
theorem C8_versionDir :
    (∀ v, v ≠ "5.9.0" → version_dir v = v) ∧
    version_dir "5.9.0" = "5.9" ∧
    version_dir "5.9.1" = "5.9.1" ∧
    version_dir "6.2.0" = "6.2.0" := by
  refine ⟨fun v h => ?_, by decide, by decide, by decide⟩
  simp [version_dir, h]

/-- Witness for C8 at a version different from 5.9.0. -/
theorem C8_versionDir_witness : version_dir "5.12.11" = "5.12.11" :=
  C8_versionDir.1 "5.12.11" (by decide)

/-- C9: a comma-delimited tool token parses to toolName = first element
and variantName = last element when there is more than one element, else
the empty string; with the spec's round-trip examples and a three-element
token showing the last element wins. -/
theorem C9_parseToolSpec :
    parseToolSpec "wintools,gcc_64" = ("wintools", "gcc_64") ∧
    parseToolSpec "wintools" = ("wintools", "") ∧
    parseToolSpec "tools_ifw,4.1.1,qt.tools.ifw.41"
      = ("tools_ifw", "qt.tools.ifw.41") ∧
    (∀ s, (parseToolSpec s).1 = (jsSplit ',' s).headD "" ∧
      (parseToolSpec s).2
        = (if (jsSplit ',' s).length > 1 then (jsSplit ',' s).getLastD "" else "")) :=
  ⟨by decide, by decide, by decide, fun s => ⟨rfl, rfl⟩⟩

/-- Inputs of a run on a mac runner whose user-supplied host is "linux":
set-env is on and an LD_LIBRARY_PATH value preexists. -/
def c5Inputs : Inputs :=
  { dir := "/ws", tools := "", setEnv := "true", host := "linux",
    target := "desktop", version := "6.2.0", arch := "gcc_64", extra := "",
    modules := "", cached := "true", toolsOnly := "" }

/-- World for the C5 run: the process platform is darwin, the lookup
resolves 6.2.0, and the glob finds exactly one directory. -/
def c5World : World :=
  { platform := "darwin", runnerWorkspace := "/rw",
    ldLibraryPath := "/preexisting", pkgConfigPath := "",
    lookup := fun _ _ _ => ⟨0, "6.2.0"⟩,
    globSync := fun _ => ["/ws/Qt/6.2.0/macos"] }

/-- Output of the C5 run: no LD_LIBRARY_PATH mutation is emitted even
though the host input is "linux", because the code keys the mutation on
`process.platform`, which is darwin here. -/
def c5Output : RunOutput :=
  { resolved := "6.2.0", specUsed := "6.2.0", installArgs := none,
    toolCalls := [],
    mutations :=
      [.exportVariable "PKG_CONFIG_PATH" "/ws/Qt/6.2.0/macos/lib/pkgconfig",
       .exportVariable "Qt6_DIR" "/ws/Qt/6.2.0/macos",
       .exportVariable "QT_PLUGIN_PATH" "/ws/Qt/6.2.0/macos/plugins",
       .exportVariable "QML2_IMPORT_PATH" "/ws/Qt/6.2.0/macos/qml",
       .addPath "/ws/Qt/6.2.0/macos/bin"] }

/-- C5 counterexample: a run with host input "linux" on a darwin platform
emits no LD_LIBRARY_PATH mutation at all, refuting the claim that every
run with host == linux receives the library-path append; the condition at
main.ts line 164 is `process.platform == "linux"`, not the host input. -/
theorem C5_hostLinux_counterexample :
    c5Inputs.host = "linux" ∧ c5Inputs.setEnv = "true" ∧
    c5World.platform = "darwin" ∧
    run c5Inputs c5World = Except.ok c5Output ∧
    exportsOf c5Output.mutations "LD_LIBRARY_PATH" = [] :=
  ⟨rfl, rfl, rfl, by rfl, by decide⟩

/-- C5 (amended): the LD_LIBRARY_PATH mutation is keyed on the running OS
platform, not on the host input: when set-env is on and the platform is
linux, a preexisting value X becomes X + ":" + sdkPath + "/lib" and an
unset value becomes sdkPath + "/lib" with no leading colon; on every other
platform the mutation is not emitted, whatever the host input was. -/
theorem C5_ldLibraryPath_amended :
    ∀ tools platform ld pkg version dir sdkPath,
      (platform = "linux" → ld ≠ "" →
        exportsOf (computeEnvMutations "true" tools platform ld pkg version dir
          [sdkPath]) "LD_LIBRARY_PATH" = [ld ++ ":" ++ sdkPath ++ "/lib"]) ∧
      (platform = "linux" → ld = "" →
        exportsOf (computeEnvMutations "true" tools platform ld pkg version dir
          [sdkPath]) "LD_LIBRARY_PATH" = [sdkPath ++ "/lib"]) ∧
      (platform ≠ "linux" →
        exportsOf (computeEnvMutations "true" tools platform ld pkg version dir
          [sdkPath]) "LD_LIBRARY_PATH" = []) := by
  intro tools platform ld pkg version dir sdkPath
  refine ⟨fun hp hld => ?_, fun hp hld => ?_, fun hp => ?_⟩
  · subst hp
    simp only [computeEnvMutations, List.head?]
    split_ifs <;>
      simp_all [exportsOf_append, exportsOf_cons_export,
        exportsOf_cons_addPath, exportsOf_nil]
  · subst hp
    simp only [computeEnvMutations, List.head?]
    split_ifs <;>
      simp_all [exportsOf_append, exportsOf_cons_export,
        exportsOf_cons_addPath, exportsOf_nil]
  · simp only [computeEnvMutations, List.head?]
    split_ifs <;>
      simp_all [exportsOf_append, exportsOf_cons_export,
        exportsOf_cons_addPath, exportsOf_nil]

/-- Witness for the amended C5: on a linux platform a preexisting value is
extended with a colon, an unset one is replaced with no leading colon, and
on darwin no library-path export is emitted. -/
theorem C5_ldLibraryPath_amended_witness :
    exportsOf (computeEnvMutations "true" "" "linux" "/usr/lib" "" "5.15.2"
        "/ws/Qt" ["/ws/Qt/5.15.2/gcc_64"]) "LD_LIBRARY_PATH"
      = ["/usr/lib" ++ ":" ++ "/ws/Qt/5.15.2/gcc_64" ++ "/lib"] ∧
    exportsOf (computeEnvMutations "true" "" "linux" "" "" "5.15.2"
        "/ws/Qt" ["/ws/Qt/5.15.2/gcc_64"]) "LD_LIBRARY_PATH"
      = ["/ws/Qt/5.15.2/gcc_64" ++ "/lib"] ∧
    exportsOf (computeEnvMutations "true" "" "darwin" "/usr/lib" "" "5.15.2"
        "/ws/Qt" ["/ws/Qt/5.15.2/clang_64"]) "LD_LIBRARY_PATH" = [] :=
  ⟨(C5_ldLibraryPath_amended "" "linux" "/usr/lib" "" "5.15.2" "/ws/Qt"
      "/ws/Qt/5.15.2/gcc_64").1 rfl (by decide),
   (C5_ldLibraryPath_amended "" "linux" "" "" "5.15.2" "/ws/Qt"
      "/ws/Qt/5.15.2/gcc_64").2.1 rfl rfl,
   (C5_ldLibraryPath_amended "" "darwin" "/usr/lib" "" "5.15.2" "/ws/Qt"
      "/ws/Qt/5.15.2/clang_64").2.2 (by decide)⟩

/-- C7: with set-env on and the glob resolving to sdkPath, a resolved
version below 6.0.0 (semantic comparison) exports both the legacy-cased
Qt5_Dir and the corrected Qt5_DIR, both equal to sdkPath, and no Qt6_DIR;
a version at or above 6.0.0 exports only Qt6_DIR, equal to sdkPath. -/
theorem C7_qtDirVariables :
    ∀ tools platform ld pkg version dir sdkPath,
      (verLt version "6.0.0" = true →
        exportsOf (computeEnvMutations "true" tools platform ld pkg version dir
          [sdkPath]) "Qt5_Dir" = [sdkPath] ∧
        exportsOf (computeEnvMutations "true" tools platform ld pkg version dir
          [sdkPath]) "Qt5_DIR" = [sdkPath] ∧
        exportsOf (computeEnvMutations "true" tools platform ld pkg version dir
          [sdkPath]) "Qt6_DIR" = []) ∧
      (verGe version "6.0.0" = true →
        exportsOf (computeEnvMutations "true" tools platform ld pkg version dir
          [sdkPath]) "Qt6_DIR" = [sdkPath] ∧
        exportsOf (computeEnvMutations "true" tools platform ld pkg version dir
          [sdkPath]) "Qt5_Dir" = [] ∧
        exportsOf (computeEnvMutations "true" tools platform ld pkg version dir
          [sdkPath]) "Qt5_DIR" = []) := by
  intro tools platform ld pkg version dir sdkPath
  constructor
  · intro hv
    refine ⟨?_, ?_, ?_⟩ <;>
      · simp only [computeEnvMutations, List.head?]
        split_ifs <;>
          simp_all [exportsOf_append, exportsOf_cons_export,
            exportsOf_cons_addPath, exportsOf_nil]
  · intro hv
    have hlt : verLt version "6.0.0" = false := by
      rw [verGe_eq_not_verLt] at hv
      simpa using hv
    refine ⟨?_, ?_, ?_⟩ <;>
      · simp only [computeEnvMutations, List.head?]
        split_ifs <;>
          simp_all [exportsOf_append, exportsOf_cons_export,
            exportsOf_cons_addPath, exportsOf_nil]

/-- Witness for C7 at the spec's example versions 5.15.2 and 6.2.0. -/
theorem C7_qtDirVariables_witness :
    (exportsOf (computeEnvMutations "true" "" "linux" "" "" "5.15.2" "/ws/Qt"
        ["/p1"]) "Qt5_Dir" = ["/p1"] ∧
      exportsOf (computeEnvMutations "true" "" "linux" "" "" "5.15.2" "/ws/Qt"
        ["/p1"]) "Qt5_DIR" = ["/p1"] ∧
      exportsOf (computeEnvMutations "true" "" "linux" "" "" "5.15.2" "/ws/Qt"
        ["/p1"]) "Qt6_DIR" = []) ∧
    (exportsOf (computeEnvMutations "true" "" "linux" "" "" "6.2.0" "/ws/Qt"
        ["/p2"]) "Qt6_DIR" = ["/p2"] ∧
      exportsOf (computeEnvMutations "true" "" "linux" "" "" "6.2.0" "/ws/Qt"
        ["/p2"]) "Qt5_Dir" = [] ∧
      exportsOf (computeEnvMutations "true" "" "linux" "" "" "6.2.0" "/ws/Qt"
        ["/p2"]) "Qt5_DIR" = []) :=
  ⟨(C7_qtDirVariables "" "linux" "" "" "5.15.2" "/ws/Qt" "/p1").1 (by decide),
   (C7_qtDirVariables "" "linux" "" "" "6.2.0" "/ws/Qt" "/p2").2 (by decide)⟩

/-- Inputs of a cached run with set-env on, used to exercise the
post-install glob. -/
def c3Inputs : Inputs :=
  { dir := "/ws", tools := "", setEnv := "true", host := "linux",
    target := "", version := "5.15.2", arch := "", extra := "",
    modules := "", cached := "true", toolsOnly := "" }

/-- World for the C3 run: the lookup resolves 5.15.2 and the glob yields
zero matches. -/
def c3World : World :=
  { platform := "linux", runnerWorkspace := "/rw", ldLibraryPath := "",
    pkgConfigPath := "", lookup := fun _ _ _ => ⟨0, "5.15.2"⟩,
    globSync := fun _ => [] }

/-- C3: the glob yielding zero matches is NOT surfaced as an error — the
run succeeds and still emits every environment mutation, with the
undefined path coerced into the values ("undefined/lib", empty Qt5 dirs,
and so on), contradicting both the exactly-one-match error surfacing and
the all-or-nothing emission the spec calls for (its section 7 records this
as the currently unguarded GlobMismatch defect). -/
theorem C3_globUnguarded_eval :
    c3World.globSync "/ws/Qt/5.15.2/**/*" = [] ∧
    run c3Inputs c3World = Except.ok
      { resolved := "5.15.2", specUsed := "5.15.2", installArgs := none,
        toolCalls := [],
        mutations :=
          [.exportVariable "LD_LIBRARY_PATH" "undefined/lib",
           .exportVariable "PKG_CONFIG_PATH" "undefined/lib/pkgconfig",
           .exportVariable "Qt5_Dir" "",
           .exportVariable "Qt5_DIR" "",
           .exportVariable "QT_PLUGIN_PATH" "undefined/plugins",
           .exportVariable "QML2_IMPORT_PATH" "undefined/qml",
           .addPath "undefined/bin"] } :=
  ⟨rfl, by rfl⟩

/-- C6 counterexample: when the user supplies no version specifier the
code defaults it to the literal "6.2" (main.ts line 70), not to a
"latest-LTS" sentinel string. -/
theorem C6_defaultSpec_counterexample :
    simpleSpecOf "" = "6.2" ∧ ("6.2" : String) ≠ "latest-LTS" := by decide

/-- C6 (amended): an absent version input defaults to the literal "6.2"
(the comment in the source explains this means the latest LTS Qt), a
non-empty input is taken verbatim, the defaulted value is what is passed
to the external resolver inside the quoted --spec argument, and every
successful run started with an empty version input records "6.2" as the
spec it used. -/
theorem C6_defaultSpec_amended :
    simpleSpecOf "" = "6.2" ∧
    (∀ s, s ≠ "" → simpleSpecOf s = s) ∧
    listQtArgs "linux" "desktop" (simpleSpecOf "")
      = ["linux", "desktop", "--spec", "\"6.2\"", "--latest"] ∧
    (∀ inp w out, inp.version = "" → run inp w = Except.ok out →
      out.specUsed = "6.2") := by
  refine ⟨by decide, fun s hs => by simp [simpleSpecOf, hs], by decide, ?_⟩
  intro inp w out hv hrun
  simp only [run, hv] at hrun
  split at hrun
  · simp at hrun
  · simp only [Except.ok.injEq] at hrun
    subst hrun
    rfl

/-- Inputs of a run with no version input (and set-env off). -/
def c6Inputs : Inputs :=
  { dir := "/ws", tools := "", setEnv := "false", host := "linux",
    target := "", version := "", arch := "", extra := "", modules := "",
    cached := "true", toolsOnly := "" }

/-- World for the C6 run: the lookup resolves 6.2.4 and the glob finds
one directory. -/
def c6World : World :=
  { platform := "linux", runnerWorkspace := "/rw", ldLibraryPath := "",
    pkgConfigPath := "", lookup := fun _ _ _ => ⟨0, "6.2.4"⟩,
    globSync := fun _ => ["/ws/Qt/6.2.4/gcc_64"] }

/-- Output of the C6 run. -/
def c6Output : RunOutput :=
  { resolved := "6.2.4", specUsed := "6.2", installArgs := none,
    toolCalls := [], mutations := [] }

/-- Witness for the amended C6: a non-empty specifier is kept verbatim,
and the concrete run with an empty version input used the spec "6.2". -/
theorem C6_defaultSpec_amended_witness :
    simpleSpecOf "5.12.6" = "5.12.6" ∧ c6Output.specUsed = "6.2" :=
  ⟨C6_defaultSpec_amended.2.1 "5.12.6" (by decide),
   C6_defaultSpec_amended.2.2.2 c6Inputs c6World c6Output rfl (by rfl)⟩

/-- C10: whenever the set-env input is anything other than "true", a run
emits no environment mutation at all, while resolving and installing
exactly as the same run with set-env "true" would (the whole run differs
from it only by the emptied mutation list). -/
theorem C10_setEnvGuard :
    ∀ inp w, inp.setEnv ≠ "true" →
      (∀ out, run inp w = Except.ok out → out.mutations = []) ∧
      run inp w
        = Except.map (fun out => { out with mutations := [] })
            (run { inp with setEnv := "true" } w) := by
  intro inp w hs
  have hmut : ∀ tools platform ld pkg version dir gm,
      computeEnvMutations inp.setEnv tools platform ld pkg version dir gm
        = [] := by
    intro tools platform ld pkg version dir gm
    simp [computeEnvMutations, hs]
  constructor
  · intro out hout
    simp only [run] at hout
    split at hout
    · simp at hout
    · simp only [Except.ok.injEq] at hout
      subst hout
      exact hmut _ _ _ _ _ _ _
  · simp only [run]
    split
    · rfl
    · simp [Except.map, hmut]

/-- Inputs of a run whose set-env input is "false". -/
def c10Inputs : Inputs :=
  { dir := "/ws", tools := "wintools,gcc_64", setEnv := "false",
    host := "linux", target := "", version := "6.2.0", arch := "",
    extra := "", modules := "", cached := "", toolsOnly := "" }

/-- World for the C10 run. -/
def c10World : World :=
  { platform := "linux", runnerWorkspace := "/rw", ldLibraryPath := "",
    pkgConfigPath := "", lookup := fun _ _ _ => ⟨0, "6.2.0"⟩,
    globSync := fun _ => ["/ws/Qt/6.2.0/gcc_64"] }

/-- Witness for C10: the concrete set-env "false" run equals the same run
with set-env "true" after emptying its mutation list. -/
theorem C10_setEnvGuard_witness :
    run c10Inputs c10World
      = Except.map (fun out => { out with mutations := [] })
          (run { c10Inputs with setEnv := "true" } c10World) :=
  (C10_setEnvGuard c10Inputs c10World (by decide)).2

end InstallQt
